import Mathlib

/-!
Verification of the Go report service (`go-service`) of the student
management system.  The Go source under `internal/client/client.go`,
`internal/service/report.go`, `internal/handlers/handlers.go` and
`internal/models/student.go` is shallowly embedded: every HTTP exchange
is abstracted as an oracle (a function from the attempt number, or the
endpoint, to the response the upstream would return), and the mutable
token store of `NodeJSClient` is passed explicitly as state.
-/

namespace GoService

/-! ## Token store (fields `accessToken`, `refreshToken`, `csrfToken` of `NodeJSClient`) -/

structure TokenSet where
  accessToken : String
  refreshToken : String
  csrfToken : String
deriving Repr, DecidableEq

/-- The store a fresh `NodeJSClient` starts with: all three token fields are
the empty string. -/
def TokenSet.empty : TokenSet := ⟨"", "", ""⟩

/-- Mirror of the check in `ensureAuthenticated` (client.go:200):
`accessToken != "" && refreshToken != "" && csrfToken != ""`. -/
def TokenSet.hasTokens (t : TokenSet) : Bool :=
  t.accessToken != "" && t.refreshToken != "" && t.csrfToken != ""

/-! ## Go error values

`GoError` models the `error` values produced by the client and the service:
`ClientError` (client.go:32) with status code, message and details;
plain `fmt.Errorf` messages; and `fmt.Errorf("...: %w", err)` wrapping. -/

inductive GoError where
  | simple (msg : String)
  | wrapped (context : String) (inner : GoError)
  | clientError (statusCode : Nat) (message : String) (details : String)
deriving Repr, DecidableEq

/-- Rendering of `%t` by Go's `fmt` package. -/
def goBool (b : Bool) : String := if b then "true" else "false"

/-! ## String primitives

The Go code uses `strings.HasPrefix`, `strings.TrimPrefix`,
`strings.Split` and `strings.Join`.  They are modelled here by structural
recursion over the character list of the string, matching Go's semantics
(Go works on bytes; every separator and pattern involved is ASCII, where
bytes and characters coincide). -/

/-- Mirror of Go's `strings.HasPrefix` at the character-list level. -/
def leadsWith : List Char → List Char → Bool
  | [], _ => true
  | _ :: _, [] => false
  | p :: ps, c :: cs => p = c && leadsWith ps cs

/-- Mirror of Go's `strings.HasPrefix`. -/
def goHasLead (p s : String) : Bool := leadsWith p.data s.data

/-- Mirror of Go's `strings.Split` for a one-character separator, at the
character-list level: `strings.Split` never returns an empty slice. -/
def splitChars (sep : Char) : List Char → List (List Char)
  | [] => [[]]
  | c :: cs =>
    if c = sep then [] :: splitChars sep cs
    else
      match splitChars sep cs with
      | [] => [[c]]
      | h :: t => (c :: h) :: t

/-- Mirror of `strings.Split(s, ";")`. -/
def goSplitSemicolon (s : String) : List String :=
  (splitChars ';' s.data).map String.mk

/-- Mirror of Go's `strings.Join`. -/
def goJoin (sep : String) : List String → String
  | [] => ""
  | [x] => x
  | x :: y :: ys => x ++ sep ++ goJoin sep (y :: ys)

/-! ## Set-Cookie parsing inside `authenticate` (client.go:137-176) -/

/-- Mirror of Go's `strings.TrimPrefix`: drop `p` from the front of `s` when
`s` starts with `p`, otherwise return `s` unchanged. -/
def trimLeading (p s : String) : String :=
  if goHasLead p s then String.mk (s.data.drop p.data.length) else s

/-- One iteration of the `for _, cookieHeader := range setCookieHeaders` loop
(client.go:143-176).  The accumulator holds the local variables
`accessToken`, `refreshToken`, `csrfToken`; a header contributes to a slot
only when its extracted value is non-empty and not the placeholder. -/
def scanCookieHeader (acc : String × String × String) (h : String) :
    String × String × String :=
  let a := acc.1
  let r := acc.2.1
  let cs := acc.2.2
  if goHasLead "accessToken=" h then
    let tokenPart := trimLeading "accessToken=" ((goSplitSemicolon h).headD "")
    if tokenPart != "" && tokenPart != "accessToken=" then (tokenPart, r, cs)
    else (a, r, cs)
  else if goHasLead "refreshToken=" h then
    let tokenPart := trimLeading "refreshToken=" ((goSplitSemicolon h).headD "")
    if tokenPart != "" && tokenPart != "refreshToken=" then (a, tokenPart, cs)
    else (a, r, cs)
  else if goHasLead "csrfToken=" h then
    let tokenPart := trimLeading "csrfToken=" ((goSplitSemicolon h).headD "")
    if tokenPart != "" && tokenPart != "csrfToken=" then (a, r, tokenPart)
    else (a, r, cs)
  else (a, r, cs)

/-- The three local token variables after the whole loop over the
`Set-Cookie` headers of the login response. -/
def extractTokens (headers : List String) : String × String × String :=
  headers.foldl scanCookieHeader ("", "", "")

/-- Message of the error returned by `authenticate` when extraction fails
(client.go:179-180). -/
def extractFailMsg (a r cs : String) : String :=
  "failed to extract authentication tokens: accessToken=" ++ goBool (a != "")
    ++ ", refreshToken=" ++ goBool (r != "") ++ ", csrfToken=" ++ goBool (cs != "")

/-! ## The login HTTP exchange -/

/-- Everything `authenticate` inspects about the response to
`POST /auth/login`: the transport error of resty's `Post` if any, the HTTP
status code and status text, the raw body, the `models.ErrorResponse`
fields resty decoded into the `SetError` target, and the `Set-Cookie`
header values. -/
structure LoginHttpResponse where
  transportErr : Option String
  statusCode : Nat
  status : String
  body : String
  errorMessage : String
  errorDetails : String
  setCookieHeaders : List String
deriving Repr, DecidableEq

/-- Mirror of `authenticate` (client.go:94-195) as a state transformer on
the token store.  `resp` is the upstream's login response.  On any failure
the store is returned unchanged; on success all three fields are replaced
wholesale (client.go:184-186). -/
def authenticate (resp : LoginHttpResponse) (store : TokenSet) :
    Except GoError Unit × TokenSet :=
  match resp.transportErr with
  | some e => (.error (.wrapped "login request failed" (.simple e)), store)
  | none =>
    if resp.statusCode > 399 then
      if resp.errorMessage != "" then
        (.error (.clientError resp.statusCode resp.errorMessage resp.errorDetails), store)
      else
        (.error (.clientError resp.statusCode resp.status resp.body), store)
    else
      let ex := extractTokens resp.setCookieHeaders
      let a := ex.1
      let r := ex.2.1
      let cs := ex.2.2
      if a = "" || r = "" || cs = "" then
        (.error (.simple (extractFailMsg a r cs)), store)
      else
        (.ok (), ⟨a, r, cs⟩)

/-- Mirror of `ensureAuthenticated` (client.go:198-207): read the store
under the read lock; when any token is missing, run `authenticate`. -/
def ensureAuthenticated (loginResp : LoginHttpResponse) (store : TokenSet) :
    Except GoError Unit × TokenSet :=
  if store.hasTokens then (.ok (), store)
  else authenticate loginResp store

/-! ## Data model (`internal/models/student.go`) -/

/-- Mirror of `models.Student`; Go pointer fields (`*string`, `*int`) become
`Option`. -/
structure Student where
  id : Int
  name : String
  email : String
  systemAccess : Bool
  phone : Option String
  gender : Option String
  dob : Option String
  «class» : Option String
  «section» : Option String
  roll : Option Int
  fatherName : Option String
  fatherPhone : Option String
  motherName : Option String
  motherPhone : Option String
  guardianName : Option String
  guardianPhone : Option String
  relationOfGuardian : Option String
  currentAddress : Option String
  permanentAddress : Option String
  admissionDate : Option String
  reporterName : Option String
deriving Repr, DecidableEq

/-- Mirror of `Student.FormatName` (student.go:70-75). -/
def Student.formatName (s : Student) : String :=
  if s.name != "" then s.name else "N/A"

/-- Mirror of `models.ErrorResponse`. -/
structure ErrorResponse where
  success : Bool
  message : String
  error : String
deriving Repr, DecidableEq

/-- Mirror of `models.APIResponse`, the envelope of a single-student fetch. -/
structure APIResponse where
  success : Bool
  data : Student
  message : String
deriving Repr, DecidableEq

/-- Mirror of `models.StudentListItem`. -/
structure StudentListItem where
  id : Int
  name : String
  email : String
  systemAccess : Bool
  «class» : Option String
  «section» : Option String
  roll : Option Int
deriving Repr, DecidableEq

/-- Mirror of `models.StudentListResponse`, the envelope of a list fetch. -/
structure StudentListResponse where
  success : Bool
  data : List StudentListItem
  message : String
deriving Repr, DecidableEq

/-! ## Authenticated requests (`makeAuthenticatedRequest`, client.go:210-252) -/

/-- Everything the client inspects about the response to an authenticated
request: the status code and text, the raw body, and the results of the
three `json.Unmarshal` attempts the callers may perform on the body
(`none` models an unmarshal error). -/
structure HttpResponse where
  statusCode : Nat
  status : String
  body : String
  errorEnvelope : Option ErrorResponse
  apiEnvelope : Option APIResponse
  listEnvelope : Option StudentListResponse
deriving Repr, DecidableEq

deriving instance DecidableEq for Except

/-- Outcome of `makeAuthenticatedRequest`, instrumented with the number of
logins performed by `ensureAuthenticated`, the number of 401-triggered
re-authentications, and the number of times the request was executed. -/
structure MReqOut where
  result : Except GoError HttpResponse
  store : TokenSet
  loginAttempts : Nat
  reauthAttempts : Nat
  requestAttempts : Nat
deriving Repr, DecidableEq

/-- Mirror of `makeAuthenticatedRequest` (client.go:210-252).  `login n` is
the upstream's response to the `n`-th login POST issued during this call;
`exec method endpoint n` is the upstream's answer to the `n`-th execution
of the request (a transport error or a response).  A first 401 response
triggers one `authenticate` and one retry; everything else — including a
second 401 — is returned as is. -/
def makeAuthenticatedRequest (method endpoint : String) (store : TokenSet)
    (login : Nat → LoginHttpResponse)
    (exec : String → String → Nat → Except GoError HttpResponse) : MReqOut :=
  let ensureLogins := if store.hasTokens then 0 else 1
  match ensureAuthenticated (login 0) store with
  | (.error e, st1) =>
    ⟨.error (.wrapped "authentication failed" e), st1, ensureLogins, 0, 0⟩
  | (.ok _, st1) =>
    match exec method endpoint 0 with
    | .error e => ⟨.error e, st1, ensureLogins, 0, 1⟩
    | .ok resp =>
      if resp.statusCode = 401 then
        match authenticate (login ensureLogins) st1 with
        | (.error authErr, st2) =>
          ⟨.error (.wrapped "re-authentication failed" authErr), st2, ensureLogins, 1, 1⟩
        | (.ok _, st2) =>
          ⟨exec method endpoint 1, st2, ensureLogins, 1, 2⟩
      else ⟨.ok resp, st1, ensureLogins, 0, 1⟩

/-! ## `GetStudentByID` (client.go:255-310) -/

/-- Mirror of `GetStudentByID`.  The Go function returns a possibly nil
`*models.Student`; the pointer is modelled as `Option Student`. -/
def GetStudentByID (store : TokenSet) (login : Nat → LoginHttpResponse)
    (exec : String → String → Nat → Except GoError HttpResponse)
    (studentID : Int) : Except GoError (Option Student) :=
  if studentID ≤ 0 then
    .error (.simple ("invalid student ID: " ++ toString studentID))
  else
    let endpoint := "/students/" ++ toString studentID
    let out := makeAuthenticatedRequest "GET" endpoint store login exec
    match out.result with
    | .error e => .error (.wrapped "request failed" e)
    | .ok resp =>
      if resp.statusCode > 399 then
        match resp.errorEnvelope with
        | some er =>
          if er.message != "" then
            .error (.clientError resp.statusCode er.message er.error)
          else
            .error (.clientError resp.statusCode resp.status resp.body)
        | none => .error (.clientError resp.statusCode resp.status resp.body)
      else
        match resp.apiEnvelope with
        | none => .error (.wrapped "failed to unmarshal response" (.simple "invalid response body"))
        | some api =>
          if !api.success then
            .error (.clientError resp.statusCode api.message "API returned success=false")
          else .ok (some api.data)

/-! ## `GetAllStudents` (client.go:313-377) -/

/-- Body of the `for key, value := range filters` loop (client.go:319-323):
an entry contributes `key=value` to the query only when its value is
non-blank. -/
def queryEntry (kv : String × String) : Option String :=
  if kv.2 != "" then some (kv.1 ++ "=" ++ kv.2) else none

/-- The endpoint string built at client.go:314-327: start from `/students`,
keep only filter entries with a non-blank value, and append them as a query
string when any remain.  Go iterates a map; the model takes the entries as
a list in some iteration order. -/
def buildStudentsEndpoint (filters : List (String × String)) : String :=
  let endpoint := "/students"
  if filters.length > 0 then
    let queryParams := filters.filterMap queryEntry
    if queryParams.length > 0 then endpoint ++ "?" ++ goJoin "&" queryParams
    else endpoint
  else endpoint

/-- Mirror of `GetAllStudents` (client.go:313-377). -/
def GetAllStudents (store : TokenSet) (login : Nat → LoginHttpResponse)
    (exec : String → String → Nat → Except GoError HttpResponse)
    (filters : List (String × String)) : Except GoError (List StudentListItem) :=
  let endpoint := buildStudentsEndpoint filters
  let out := makeAuthenticatedRequest "GET" endpoint store login exec
  match out.result with
  | .error e => .error (.wrapped "request failed" e)
  | .ok resp =>
    if resp.statusCode > 399 then
      match resp.errorEnvelope with
      | some er =>
        if er.message != "" then
          .error (.clientError resp.statusCode er.message er.error)
        else
          .error (.clientError resp.statusCode resp.status resp.body)
      | none => .error (.clientError resp.statusCode resp.status resp.body)
    else
      match resp.listEnvelope with
      | none => .error (.wrapped "failed to unmarshal response" (.simple "invalid response body"))
      | some api =>
        if !api.success then
          .error (.clientError resp.statusCode api.message "API returned success=false")
        else .ok api.data

/-! ## Health checks (client.go:380-398 and report.go:96-140) -/

/-- Mirror of `NodeJSClient.HealthCheck`: `probe` is the outcome of the
unauthenticated `GET /` against the base URL — either a transport error or
a status code.  A status of 500 or above is an error; anything else is
healthy. -/
def clientHealthCheck (probe : Except String Nat) : Except String Unit :=
  match probe with
  | .error e => .error ("health check request failed: " ++ e)
  | .ok code =>
    if code ≥ 500 then
      .error ("Node.js API is experiencing server errors (status: " ++ toString code ++ ")")
    else .ok ()

/-- Mirror of `service.ComponentStatus`. -/
structure ComponentStatus where
  status : String
  message : String
deriving Repr, DecidableEq

/-- Mirror of `service.ServiceHealthStatus`; the components map becomes an
association list in insertion order. -/
structure ServiceHealthStatus where
  service : String
  healthy : Bool
  message : String
  timestamp : Int
  components : List (String × ComponentStatus)
deriving Repr, DecidableEq

/-- Mirror of `PDFReportService.HealthCheck` (report.go:96-140), given the
result of `nodeClient.HealthCheck()` and whether the `pdfGenerator`
interface value is non-nil. -/
def serviceHealthCheckCore (nodeHealth : Except String Unit)
    (generatorPresent : Bool) (now : Int) : ServiceHealthStatus :=
  let stage1 :=
    match nodeHealth with
    | .error e => (false, [("nodejs_api", ComponentStatus.mk "unhealthy" e)])
    | .ok _ => (true, [("nodejs_api", ComponentStatus.mk "healthy" "API is responsive")])
  let stage2 :=
    if generatorPresent then
      (stage1.1, stage1.2 ++ [("pdf_generator", ComponentStatus.mk "healthy" "Generator is ready")])
    else
      (false, stage1.2 ++ [("pdf_generator", ComponentStatus.mk "unhealthy" "Generator not initialized")])
  { service := "Report Service"
    healthy := stage2.1
    message := if stage2.1 then "All systems operational" else "Some components are unhealthy"
    timestamp := now
    components := stage2.2 }

/-- The production composition: the service health check run over the
concrete client health check. -/
def serviceHealthCheck (probe : Except String Nat) (generatorPresent : Bool)
    (now : Int) : ServiceHealthStatus :=
  serviceHealthCheckCore (clientHealthCheck probe) generatorPresent now

/-! ## Report orchestration (`internal/service/report.go`) -/

/-- Mirror of `models.ReportMetadata`; `time.Time` values are modelled as
integers. -/
structure ReportMetadata where
  generatedAt : Int
  generatedBy : String
  reportID : String
deriving Repr, DecidableEq

/-- Mirror of `service.PDFReportResult`. -/
structure PDFReportResult where
  reportID : String
  studentID : Int
  studentName : String
  filePath : String
  generatedAt : Int
  generatedBy : String
  fileSize : Int
deriving Repr, DecidableEq

/-- Mirror of `getActualFileSize` (report.go:148-153): `statSize p` is the
size `os.Stat` reports for path `p`, or `none` when `os.Stat` errors; a
stat failure yields size 0. -/
def getActualFileSize (statSize : String → Option Nat) (filePath : String) : Int :=
  match statSize filePath with
  | some n => (n : Int)
  | none => 0

/-- Outcome of `CreateStudentPDF`, instrumented with the number of calls to
`nodeClient.GetStudentByID`, the number of calls to
`pdfGenerator.GenerateStudentReport`, and whether the `student == nil`
branch at report.go:61-63 was taken. -/
structure CreatePDFOut where
  result : Except GoError PDFReportResult
  fetchCalls : Nat
  pdfCalls : Nat
  nilStudentHit : Bool
deriving Repr, DecidableEq

/-- Mirror of `CreateStudentPDF` (report.go:50-93).  `getStudent` is the
injected `NodeJSClientInterface.GetStudentByID`; `generate` the injected
PDF generator returning an artifact path; `genAt` and `nowUnix` are the
two `time.Now()` readings (wall time for `GeneratedAt`, Unix seconds for
the report id). -/
def CreateStudentPDF (getStudent : Int → Except GoError (Option Student))
    (generate : Student → ReportMetadata → Except GoError String)
    (statSize : String → Option Nat)
    (genAt nowUnix : Int) (studentID : Int) (generatedBy : String) : CreatePDFOut :=
  if studentID ≤ 0 then
    ⟨.error (.simple ("invalid student ID: " ++ toString studentID)), 0, 0, false⟩
  else
    match getStudent studentID with
    | .error e => ⟨.error (.wrapped "failed to fetch student data" e), 1, 0, false⟩
    | .ok none =>
      ⟨.error (.simple ("student with ID " ++ toString studentID ++ " not found")), 1, 0, true⟩
    | .ok (some student) =>
      let metadata : ReportMetadata :=
        ⟨genAt, generatedBy, "RPT-" ++ toString studentID ++ "-" ++ toString nowUnix⟩
      match generate student metadata with
      | .error e => ⟨.error (.wrapped "failed to generate PDF report" e), 1, 1, false⟩
      | .ok filePath =>
        let fileSize := getActualFileSize statSize filePath
        ⟨.ok ⟨metadata.reportID, studentID, student.formatName, filePath,
              metadata.generatedAt, generatedBy, fileSize⟩, 1, 1, false⟩

/-- The fetch function the production service composes into
`CreateStudentPDF`: the concrete client's `GetStudentByID` over the given
store and oracles. -/
def clientFetch (store : TokenSet) (login : Nat → LoginHttpResponse)
    (exec : String → String → Nat → Except GoError HttpResponse) :
    Int → Except GoError (Option Student) :=
  fun studentID => GetStudentByID store login exec studentID

/-! ## Handler fragment (`internal/handlers/handlers.go`, CreateStudentPDF) -/

/-- Mirror of Go's `url.Values.Get`: the first value recorded for the key,
or the empty string when the key is absent. -/
def queryGet (q : List (String × String)) (key : String) : String :=
  match q.find? (fun kv => kv.1 = key) with
  | some kv => kv.2
  | none => ""

/-- The `generated_by` value the handler computes at handlers.go:44-47:
the query parameter, defaulted to `"API"` when it is absent or empty. -/
def handlerGeneratedBy (q : List (String × String)) : String :=
  let generatedBy := queryGet q "generated_by"
  if generatedBy = "" then "API" else generatedBy

/-- The handler's invocation of report creation (handlers.go:43-50): it
passes the student id through and the defaulted `generated_by` value. -/
def handlerCreateCall {α : Type} (q : List (String × String)) (studentID : Int)
    (createStudentPDF : Int → String → α) : α :=
  createStudentPDF studentID (handlerGeneratedBy q)

/-! ## Concurrency model for `ensureAuthenticated`

The Go code guards the token fields with `sync.RWMutex`: the presence
check in `ensureAuthenticated` (client.go:199-201) runs under the read
lock and is atomic, and the store update inside `authenticate`
(client.go:134-186) runs under the write lock and is atomic — but nothing
links the two, so between a caller's check and its login another caller
may do anything.  Each caller is therefore a two-step program: step one
atomically reads `hasTokens`; step two (taken only when the read saw
missing tokens) atomically performs a login, replacing the store and
bumping the login counter.  A schedule is the sequence of caller indices
chosen by the scheduler; out-of-range indices and steps of finished
callers are no-ops. -/

inductive CPhase where
  | ready
  | willLogin
  | finished
deriving Repr, DecidableEq

/-- Global state of the interleaved execution: the shared token store, the
number of logins performed so far, and each caller's phase. -/
structure EnsureWorld where
  store : TokenSet
  logins : Nat
  phases : List CPhase
deriving Repr, DecidableEq

/-- One scheduler step: caller `i` executes its next atomic action.
`loginTok n` is the token set the `n`-th login stores (all logins are
assumed to succeed, as in the scenario of the claim). -/
def ensureStep (loginTok : Nat → TokenSet) (w : EnsureWorld) (i : Nat) : EnsureWorld :=
  match w.phases.get? i with
  | some .ready =>
    if w.store.hasTokens then { w with phases := w.phases.set i .finished }
    else { w with phases := w.phases.set i .willLogin }
  | some .willLogin =>
    { store := loginTok w.logins, logins := w.logins + 1, phases := w.phases.set i .finished }
  | _ => w

/-- Run a whole schedule from a world. -/
def ensureRun (loginTok : Nat → TokenSet) (sched : List Nat) (w : EnsureWorld) : EnsureWorld :=
  sched.foldl (ensureStep loginTok) w

/-- Initial world for `n` concurrent callers of `ensureAuthenticated` on a
fresh (unauthenticated) client. -/
def ensureInit (n : Nat) : EnsureWorld :=
  ⟨TokenSet.empty, 0, List.replicate n CPhase.ready⟩

/-- A world in which every caller has returned from `ensureAuthenticated`. -/
def EnsureWorld.complete (w : EnsureWorld) : Bool :=
  w.phases.all (fun p => p = CPhase.finished)

/-- Number of future login operations a caller in this phase can still
contribute: one unless it is finished. -/
def CPhase.weight : CPhase → Nat
  | .finished => 0
  | _ => 1

/-- Invariant of the interleaved execution: the number of callers is
fixed; the logins performed plus the logins still possible are bounded by
the number of callers; and either some login already populated the store,
or no login has happened, the store is still empty, and some caller has
not finished. -/
def EnsureInv (n : Nat) (w : EnsureWorld) : Prop :=
  w.phases.length = n ∧
  w.logins + (w.phases.map CPhase.weight).sum ≤ n ∧
  ((w.store.hasTokens = true ∧ 1 ≤ w.logins) ∨
    (w.store = TokenSet.empty ∧ w.logins = 0 ∧ w.complete = false))

/-! ## Literal statements of two spec sentences

These two propositions restate spec sentences word for word, to be
compared with the code model; each is settled below. -/

/-- Spec sentence: concurrent `ensureAuthenticated` callers that start from
an unauthenticated store perform exactly one login between them.
`loginTok n` is the (valid) token set the `n`-th login would store; the
sentence is quantified over every schedule that runs all callers to
completion. -/
def singleFlightLoginProp : Prop :=
  ∀ (loginTok : Nat → TokenSet) (n : Nat) (sched : List Nat),
    2 ≤ n → (∀ i, (loginTok i).hasTokens = true) →
    (ensureRun loginTok sched (ensureInit n)).complete = true →
    (ensureRun loginTok sched (ensureInit n)).logins = 1

/-- Spec sentence: when the entity fetch and the document synthesis both
succeed, `CreateStudentPDF` returns a result whose report id is
`RPT-<id>-<epochSeconds>`, whose student id, generator and file-size
fields are as described, and whose `StudentName` equals the fetched
student's name. -/
def createReportLiteralNameProp : Prop :=
  ∀ (getStudent : Int → Except GoError (Option Student))
    (generate : Student → ReportMetadata → Except GoError String)
    (statSize : String → Option Nat) (genAt nowUnix studentID : Int)
    (generatedBy : String) (student : Student) (filePath : String),
    0 < studentID →
    getStudent studentID = .ok (some student) →
    generate student ⟨genAt, generatedBy,
      "RPT-" ++ toString studentID ++ "-" ++ toString nowUnix⟩ = .ok filePath →
    (CreateStudentPDF getStudent generate statSize genAt nowUnix studentID
        generatedBy).result.isOk = true ∧
    ∀ r, (CreateStudentPDF getStudent generate statSize genAt nowUnix studentID
        generatedBy).result = .ok r →
      r.reportID = "RPT-" ++ toString studentID ++ "-" ++ toString nowUnix ∧
      r.studentID = studentID ∧ r.generatedBy = generatedBy ∧
      r.studentName = student.name ∧
      0 ≤ r.fileSize ∧ (statSize filePath = none → r.fileSize = 0)

/-! ## Concrete sample data used by the closed-form theorems below -/

/-- A login response carrying all three cookie directives. -/
def goodLoginResp : LoginHttpResponse :=
  ⟨none, 200, "200 OK", "", "", "",
   ["accessToken=newA; Path=/; HttpOnly", "refreshToken=newR; Path=/",
    "csrfToken=newC; Path=/"]⟩

/-- A login response whose `csrfToken` directive is missing. -/
def missingCsrfLoginResp : LoginHttpResponse :=
  ⟨none, 200, "200 OK", "", "", "",
   ["accessToken=abc; Path=/; HttpOnly", "refreshToken=def; Path=/"]⟩

/-- A fully populated token store. -/
def sampleTokens : TokenSet := ⟨"tokA", "tokR", "tokC"⟩

/-- A student record whose optional fields are all absent and whose name is
non-empty. -/
def johnStudent : Student :=
  ⟨42, "John Doe", "john@school.com", true, none, none, none, none, none,
   none, none, none, none, none, none, none, none, none, none, none, none⟩

/-- A student record whose `name` field is the empty string. -/
def anonStudent : Student :=
  ⟨7, "", "anon@school.com", true, none, none, none, none, none,
   none, none, none, none, none, none, none, none, none, none, none, none⟩

/-- A transport-successful response whose business envelope reports
`success=false`. -/
def falseEnvelopeResp : HttpResponse :=
  ⟨200, "200 OK", "{}", none, some ⟨false, johnStudent, "Student not found"⟩, none⟩

/-- An unauthorized response. -/
def resp401 : HttpResponse := ⟨401, "401 Unauthorized", "", none, none, none⟩

/-- A successful single-student response carrying `johnStudent`. -/
def okJohnResp : HttpResponse :=
  ⟨200, "200 OK", "{}", none, some ⟨true, johnStudent, "ok"⟩, none⟩

/-- A successful list response with one student summary. -/
def okListResp : HttpResponse :=
  ⟨200, "200 OK", "{}", none, none,
   some ⟨true, [⟨42, "John Doe", "john@school.com", true, none, none, none⟩], "ok"⟩⟩

/-! ## Theorems -/

/-- C3: for every login response (transport-successful, non-error status)
from whose `Set-Cookie` headers any of the three directives `accessToken`,
`refreshToken`, `csrfToken` cannot be extracted as a non-empty value,
`authenticate` returns an authentication error and the token store is
returned completely unmodified — no field is partially overwritten, and an
empty store stays empty. -/
theorem authenticate_missing_directive_preserves_store
    (resp : LoginHttpResponse) (store : TokenSet) (a r cs : String)
    (hT : resp.transportErr = none) (hS : resp.statusCode ≤ 399)
    (hex : extractTokens resp.setCookieHeaders = (a, r, cs))
    (hMiss : a = "" ∨ r = "" ∨ cs = "") :
    authenticate resp store = (.error (.simple (extractFailMsg a r cs)), store) := by
  have h399 : ¬ (resp.statusCode > 399) := by omega
  unfold authenticate
  rw [hT]
  simp only [h399, if_false, hex]
  rcases hMiss with h | h | h <;> subst h <;> simp

/-- Closed instance of `authenticate_missing_directive_preserves_store`:
a login response missing the `csrfToken` directive fails and leaves the
initially empty store empty. -/
theorem authenticate_missing_directive_preserves_store_witness :
    authenticate missingCsrfLoginResp TokenSet.empty =
      (.error (.simple (extractFailMsg "abc" "def" "")), TokenSet.empty) :=
  authenticate_missing_directive_preserves_store missingCsrfLoginResp TokenSet.empty
    "abc" "def" "" rfl (by decide) (by decide) (Or.inr (Or.inr rfl))

/-- C4: for every id at most 0 and every `generatedBy`, `CreateStudentPDF`
fails with the invalid-argument error and performs no fetch and no PDF
generation — in particular no network call reaches the upstream. -/
theorem createStudentPDF_invalid_id_no_fetch
    (getStudent : Int → Except GoError (Option Student))
    (generate : Student → ReportMetadata → Except GoError String)
    (statSize : String → Option Nat) (genAt nowUnix studentID : Int)
    (generatedBy : String) (hid : studentID ≤ 0) :
    CreateStudentPDF getStudent generate statSize genAt nowUnix studentID generatedBy =
      ⟨.error (.simple ("invalid student ID: " ++ toString studentID)), 0, 0, false⟩ := by
  unfold CreateStudentPDF
  rw [if_pos hid]

/-- Closed instances of `createStudentPDF_invalid_id_no_fetch` at ids 0 and
-5. -/
theorem createStudentPDF_invalid_id_no_fetch_witness :
    CreateStudentPDF (fun _ => .error (.simple "unused"))
        (fun _ _ => .error (.simple "unused")) (fun _ => none) 0 0 0 "Admin" =
      ⟨.error (.simple ("invalid student ID: " ++ toString (0 : Int))), 0, 0, false⟩ ∧
    CreateStudentPDF (fun _ => .error (.simple "unused"))
        (fun _ _ => .error (.simple "unused")) (fun _ => none) 0 0 (-5) "Admin" =
      ⟨.error (.simple ("invalid student ID: " ++ toString (-5 : Int))), 0, 0, false⟩ :=
  ⟨createStudentPDF_invalid_id_no_fetch _ _ _ _ _ _ _ (by norm_num),
   createStudentPDF_invalid_id_no_fetch _ _ _ _ _ _ _ (by norm_num)⟩

/-- C10: the handler's report-creation call passes `generatedBy = "API"`
whenever the `generated_by` query parameter is absent or empty, and passes
the supplied value unchanged otherwise. -/
theorem handler_generatedBy_default {α : Type} (q : List (String × String))
    (studentID : Int) (svc : Int → String → α) :
    (queryGet q "generated_by" = "" →
      handlerCreateCall q studentID svc = svc studentID "API") ∧
    (queryGet q "generated_by" ≠ "" →
      handlerCreateCall q studentID svc = svc studentID (queryGet q "generated_by")) := by
  constructor
  · intro h
    unfold handlerCreateCall handlerGeneratedBy
    rw [h]
    simp
  · intro h
    unfold handlerCreateCall handlerGeneratedBy
    rw [if_neg h]

/-- Closed instances of `handler_generatedBy_default`: an absent parameter,
an empty parameter, and a supplied parameter. -/
theorem handler_generatedBy_default_witness :
    handlerCreateCall [] 7 (fun i g => (i, g)) = (7, "API") ∧
    handlerCreateCall [("generated_by", "")] 7 (fun i g => (i, g)) = (7, "API") ∧
    handlerCreateCall [("generated_by", "Admin")] 7 (fun i g => (i, g)) = (7, "Admin") :=
  ⟨(handler_generatedBy_default [] 7 _).1 rfl,
   (handler_generatedBy_default [("generated_by", "")] 7 _).1 rfl,
   (handler_generatedBy_default [("generated_by", "Admin")] 7 _).2 (by decide)⟩

/-- Helper: with a populated store, a first response that is not a 401 is
returned as is — no login, no re-authentication, a single execution. -/
theorem makeAuthenticatedRequest_no401 (method endpoint : String) (store : TokenSet)
    (login : Nat → LoginHttpResponse)
    (exec : String → String → Nat → Except GoError HttpResponse) (resp : HttpResponse)
    (hstore : store.hasTokens = true)
    (hexec : exec method endpoint 0 = .ok resp)
    (h401 : resp.statusCode ≠ 401) :
    makeAuthenticatedRequest method endpoint store login exec =
      ⟨.ok resp, store, 0, 0, 1⟩ := by
  unfold makeAuthenticatedRequest ensureAuthenticated
  rw [hstore]
  simp only [if_true, hexec]
  rw [if_neg h401]

/-- C6: a transport-successful response whose business envelope carries
`success=false` makes `GetStudentByID` fail with a `ClientError` that
carries the envelope's message, even though the HTTP status was a
success. -/
theorem getStudentByID_success_false_envelope (store : TokenSet)
    (login : Nat → LoginHttpResponse)
    (exec : String → String → Nat → Except GoError HttpResponse)
    (studentID : Int) (resp : HttpResponse) (api : APIResponse)
    (hid : 0 < studentID) (hstore : store.hasTokens = true)
    (hexec : exec "GET" ("/students/" ++ toString studentID) 0 = .ok resp)
    (hstatus : resp.statusCode ≤ 399)
    (henv : resp.apiEnvelope = some api) (hfail : api.success = false) :
    GetStudentByID store login exec studentID =
      .error (.clientError resp.statusCode api.message "API returned success=false") := by
  unfold GetStudentByID
  rw [if_neg (by omega : ¬ (studentID ≤ 0))]
  dsimp only
  rw [makeAuthenticatedRequest_no401 _ _ _ login _ _ hstore hexec (by omega)]
  dsimp only
  rw [if_neg (by omega : ¬ (resp.statusCode > 399)), henv]
  simp [hfail]

/-- Closed instance of `getStudentByID_success_false_envelope`: a 200
response whose envelope says `success=false` with message
"Student not found". -/
theorem getStudentByID_success_false_envelope_witness :
    GetStudentByID sampleTokens (fun _ => goodLoginResp)
        (fun _ _ _ => .ok falseEnvelopeResp) 42 =
      .error (.clientError 200 "Student not found" "API returned success=false") :=
  getStudentByID_success_false_envelope sampleTokens (fun _ => goodLoginResp)
    (fun _ _ _ => .ok falseEnvelopeResp) 42 falseEnvelopeResp
    ⟨false, johnStudent, "Student not found"⟩
    (by norm_num) (by decide) rfl (by decide) rfl rfl

/-- Helper: every successful return of `GetStudentByID` carries a non-nil
student pointer. -/
theorem getStudentByID_ok_isSome (store : TokenSet) (login : Nat → LoginHttpResponse)
    (exec : String → String → Nat → Except GoError HttpResponse)
    (studentID : Int) (p : Option Student)
    (h : GetStudentByID store login exec studentID = .ok p) : p.isSome = true := by
  unfold GetStudentByID at h
  dsimp only at h
  split at h
  · simp at h
  · split at h
    · simp at h
    · split at h
      · split at h
        · split at h
          · simp at h
          · simp at h
        · simp at h
      · split at h
        · simp at h
        · split at h
          · simp at h
          · simp only [Except.ok.injEq] at h
            subst h
            rfl

/-- C9: whenever `GetStudentByID` returns without error the student pointer
is non-nil, and consequently the `student == nil` branch of
`CreateStudentPDF` is never taken when the service composes the concrete
client. -/
theorem getStudentByID_nonnil_student (store : TokenSet)
    (login : Nat → LoginHttpResponse)
    (exec : String → String → Nat → Except GoError HttpResponse)
    (studentID : Int) (p : Option Student)
    (generate : Student → ReportMetadata → Except GoError String)
    (statSize : String → Option Nat) (genAt nowUnix : Int) (generatedBy : String) :
    (GetStudentByID store login exec studentID = .ok p → p.isSome = true) ∧
    (CreateStudentPDF (clientFetch store login exec) generate statSize genAt nowUnix
        studentID generatedBy).nilStudentHit = false := by
  refine ⟨getStudentByID_ok_isSome store login exec studentID p, ?_⟩
  unfold CreateStudentPDF
  split
  · rfl
  · rcases hfe : clientFetch store login exec studentID with e | q
    · simp only [hfe]
    · rcases q with _ | s
      · have hsome := getStudentByID_ok_isSome store login exec studentID none
          (by unfold clientFetch at hfe; exact hfe)
        simp at hsome
      · simp only [hfe]
        split <;> rfl

/-- Closed instance of `getStudentByID_nonnil_student` at a successful
fetch of `johnStudent`. -/
theorem getStudentByID_nonnil_student_witness :
    ((some johnStudent).isSome = true) ∧
    (CreateStudentPDF
        (clientFetch sampleTokens (fun _ => goodLoginResp) (fun _ _ _ => .ok okJohnResp))
        (fun _ _ => .ok "reports/out.pdf") (fun _ => some 1024) 0 0 42
        "Admin").nilStudentHit = false :=
  ⟨(getStudentByID_nonnil_student sampleTokens (fun _ => goodLoginResp)
      (fun _ _ _ => .ok okJohnResp) 42 (some johnStudent)
      (fun _ _ => .ok "reports/out.pdf") (fun _ => some 1024) 0 0 "Admin").1 (by decide),
   (getStudentByID_nonnil_student sampleTokens (fun _ => goodLoginResp)
      (fun _ _ _ => .ok okJohnResp) 42 (some johnStudent)
      (fun _ _ => .ok "reports/out.pdf") (fun _ => some 1024) 0 0 "Admin").2⟩

/-- Helper: keeping only the non-blank filter entries does not change the
collected query parameters, since blank entries contribute nothing. -/
theorem filterMap_queryEntry_filter (l : List (String × String)) :
    (l.filter (fun kv => kv.2 != "")).filterMap queryEntry = l.filterMap queryEntry := by
  induction l with
  | nil => rfl
  | cons kv t ih =>
    by_cases h : kv.2 = ""
    · simp [List.filter_cons, List.filterMap_cons, queryEntry, h, ih]
    · simp [List.filter_cons, List.filterMap_cons, queryEntry, h, ih]

/-- Helper: the outbound endpoint is unchanged when the blank-valued filter
entries are dropped beforehand. -/
theorem buildStudentsEndpoint_filter_blank (filters : List (String × String)) :
    buildStudentsEndpoint filters =
      buildStudentsEndpoint (filters.filter (fun kv => kv.2 != "")) := by
  rcases hF : filters.filter (fun kv => kv.2 != "") with _ | ⟨kv0, F'⟩
  · have hQ : filters.filterMap queryEntry = [] := by
      rw [← filterMap_queryEntry_filter, hF]
      rfl
    unfold buildStudentsEndpoint
    rw [hQ]
    simp [hF]
  · have hmem : kv0 ∈ filters.filter (fun kv => kv.2 != "") := by
      rw [hF]; exact List.mem_cons_self _ _
    have hpred : (kv0.2 != "") = true := (List.mem_filter.mp hmem).2
    have hne : filters ≠ [] := by
      intro h0; rw [h0] at hF; simp at hF
    have hlen : 0 < filters.length := List.length_pos.mpr hne
    have hQ : filters.filterMap queryEntry =
        (kv0.1 ++ "=" ++ kv0.2) :: F'.filterMap queryEntry := by
      rw [← filterMap_queryEntry_filter, hF]
      simp [List.filterMap_cons, queryEntry, hpred]
    unfold buildStudentsEndpoint
    rw [hQ, hF]
    simp [hlen, List.filterMap_cons, queryEntry, hpred]

/-- C7: blank-valued filter entries are excluded from the outbound query
(the endpoint is insensitive to dropping them); an empty mapping, or one
whose values are all blank, produces the bare `/students` endpoint; and
the request succeeds for any filters whenever the upstream answers with a
successful envelope. -/
theorem getAllStudents_blank_filters (filters : List (String × String))
    (store : TokenSet) (login : Nat → LoginHttpResponse)
    (exec : String → String → Nat → Except GoError HttpResponse)
    (resp : HttpResponse) (env : StudentListResponse) :
    buildStudentsEndpoint filters =
      buildStudentsEndpoint (filters.filter (fun kv => kv.2 != "")) ∧
    ((∀ kv ∈ filters, kv.2 = "") → buildStudentsEndpoint filters = "/students") ∧
    (store.hasTokens = true →
      exec "GET" (buildStudentsEndpoint filters) 0 = .ok resp →
      resp.statusCode ≤ 399 →
      resp.listEnvelope = some env →
      env.success = true →
      GetAllStudents store login exec filters = .ok env.data) := by
  refine ⟨buildStudentsEndpoint_filter_blank filters, ?_, ?_⟩
  · intro hall
    have hnil : filters.filter (fun kv => kv.2 != "") = [] := by
      rw [List.filter_eq_nil_iff]
      intro kv hkv
      simp [hall kv hkv]
    rw [buildStudentsEndpoint_filter_blank, hnil]
    rfl
  · intro hstore hexec hstatus henv hsucc
    unfold GetAllStudents
    dsimp only
    rw [makeAuthenticatedRequest_no401 _ _ _ login _ _ hstore hexec (by omega)]
    dsimp only
    rw [if_neg (by omega : ¬ (resp.statusCode > 399)), henv]
    simp [hsucc]

/-- Closed instances of `getAllStudents_blank_filters`: the empty mapping
and an all-blank mapping yield the bare endpoint, and a non-blank mapping
succeeds against a successful upstream. -/
theorem getAllStudents_blank_filters_witness :
    buildStudentsEndpoint [] = "/students" ∧
    buildStudentsEndpoint [("name", "")] = "/students" ∧
    GetAllStudents sampleTokens (fun _ => goodLoginResp)
        (fun _ _ _ => .ok okListResp) [("class", "Grade 10")] =
      .ok [⟨42, "John Doe", "john@school.com", true, none, none, none⟩] :=
  ⟨(getAllStudents_blank_filters [] sampleTokens (fun _ => goodLoginResp)
      (fun _ _ _ => .ok okListResp) okListResp
      ⟨true, [⟨42, "John Doe", "john@school.com", true, none, none, none⟩], "ok"⟩).2.1
      (by intro kv hkv; cases hkv),
   (getAllStudents_blank_filters [("name", "")] sampleTokens (fun _ => goodLoginResp)
      (fun _ _ _ => .ok okListResp) okListResp
      ⟨true, [⟨42, "John Doe", "john@school.com", true, none, none, none⟩], "ok"⟩).2.1
      (by intro kv hkv; simp at hkv; simp [hkv]),
   (getAllStudents_blank_filters [("class", "Grade 10")] sampleTokens
      (fun _ => goodLoginResp) (fun _ _ _ => .ok okListResp) okListResp
      ⟨true, [⟨42, "John Doe", "john@school.com", true, none, none, none⟩], "ok"⟩).2.2
      (by decide) rfl (by decide) rfl rfl⟩

/-- C8: the aggregated health check is unhealthy whenever the upstream
probe errors or answers with a server-class (at least 500) status; any
other probe status marks the upstream component healthy (and the overall
status healthy when the generator is present); and the component map
always holds entries for both the upstream client and the generator. -/
theorem healthCheck_probe_aggregation (probe : Except String Nat)
    (generatorPresent : Bool) (now : Int) :
    (∀ e, probe = .error e →
      (serviceHealthCheck probe generatorPresent now).healthy = false) ∧
    (∀ code, probe = .ok code → 500 ≤ code →
      (serviceHealthCheck probe generatorPresent now).healthy = false) ∧
    (∀ code, probe = .ok code → code < 500 →
      ((serviceHealthCheck probe generatorPresent now).components.lookup "nodejs_api" =
          some ⟨"healthy", "API is responsive"⟩ ∧
        (generatorPresent = true →
          (serviceHealthCheck probe generatorPresent now).healthy = true))) ∧
    ((serviceHealthCheck probe generatorPresent now).components.lookup
        "nodejs_api").isSome = true ∧
    ((serviceHealthCheck probe generatorPresent now).components.lookup
        "pdf_generator").isSome = true := by
  refine ⟨?_, ?_, ?_, ?_, ?_⟩
  · rintro e rfl
    cases generatorPresent <;>
      simp [serviceHealthCheck, serviceHealthCheckCore, clientHealthCheck]
  · rintro code rfl hcode
    have h5 : code ≥ 500 := hcode
    cases generatorPresent <;>
      simp [serviceHealthCheck, serviceHealthCheckCore, clientHealthCheck, if_pos h5]
  · rintro code rfl hcode
    have h5 : ¬ (code ≥ 500) := by omega
    cases generatorPresent <;>
      simp [serviceHealthCheck, serviceHealthCheckCore, clientHealthCheck, if_neg h5,
        List.lookup]
  · rcases probe with e | code <;> cases generatorPresent <;>
      simp [serviceHealthCheck, serviceHealthCheckCore, clientHealthCheck, List.lookup] <;>
      split <;> simp
  · rcases probe with e | code <;> cases generatorPresent <;>
      simp [serviceHealthCheck, serviceHealthCheckCore, clientHealthCheck, List.lookup]

/-- Closed instances of `healthCheck_probe_aggregation`: a transport error
and a 503 are unhealthy; a 404 keeps the upstream component healthy and,
with the generator present, the overall status healthy. -/
theorem healthCheck_probe_aggregation_witness :
    (serviceHealthCheck (.error "connection refused") true 0).healthy = false ∧
    (serviceHealthCheck (.ok 503) true 0).healthy = false ∧
    ((serviceHealthCheck (.ok 404) true 0).components.lookup "nodejs_api" =
        some ⟨"healthy", "API is responsive"⟩ ∧
      (serviceHealthCheck (.ok 404) true 0).healthy = true) ∧
    ((serviceHealthCheck (.ok 404) true 0).components.lookup "pdf_generator").isSome = true :=
  ⟨(healthCheck_probe_aggregation (.error "connection refused") true 0).1
      "connection refused" rfl,
   (healthCheck_probe_aggregation (.ok 503) true 0).2.1 503 rfl (by norm_num),
   ⟨((healthCheck_probe_aggregation (.ok 404) true 0).2.2.1 404 rfl (by norm_num)).1,
    ((healthCheck_probe_aggregation (.ok 404) true 0).2.2.1 404 rfl (by norm_num)).2 rfl⟩,
   (healthCheck_probe_aggregation (.ok 404) true 0).2.2.2.2⟩

/-- Helper: a first 401 response followed by a failing re-authentication
ends the request with the wrapped authentication error after a single
execution and a single re-authentication attempt. -/
theorem makeAuthenticatedRequest_401_reauth_fail (method endpoint : String)
    (store : TokenSet) (login : Nat → LoginHttpResponse)
    (exec : String → String → Nat → Except GoError HttpResponse)
    (r1 : HttpResponse) (e : GoError) (st2 : TokenSet)
    (hstore : store.hasTokens = true) (hexec : exec method endpoint 0 = .ok r1)
    (h401 : r1.statusCode = 401)
    (hauth : authenticate (login 0) store = (.error e, st2)) :
    makeAuthenticatedRequest method endpoint store login exec =
      ⟨.error (.wrapped "re-authentication failed" e), st2, 0, 1, 1⟩ := by
  simp [makeAuthenticatedRequest, ensureAuthenticated, hstore, hexec, h401, hauth]

/-- Helper: a first 401 response followed by a successful
re-authentication re-issues the request exactly once and returns the
second outcome as is. -/
theorem makeAuthenticatedRequest_401_reauth_ok (method endpoint : String)
    (store : TokenSet) (login : Nat → LoginHttpResponse)
    (exec : String → String → Nat → Except GoError HttpResponse)
    (r1 : HttpResponse) (st2 : TokenSet)
    (hstore : store.hasTokens = true) (hexec : exec method endpoint 0 = .ok r1)
    (h401 : r1.statusCode = 401)
    (hauth : authenticate (login 0) store = (.ok (), st2)) :
    makeAuthenticatedRequest method endpoint store login exec =
      ⟨exec method endpoint 1, st2, 0, 1, 2⟩ := by
  simp [makeAuthenticatedRequest, ensureAuthenticated, hstore, hexec, h401, hauth]

/-- C2: every authenticated request performs at most one forced
re-authentication and at most two executions of the request; a first 401
response triggers exactly one `authenticate` call and (when it succeeds)
exactly one retry, whose outcome — in particular a second 401 — is
returned as the terminal result with no further re-authentication or
retry. -/
theorem makeAuthenticatedRequest_single_retry (method endpoint : String)
    (store : TokenSet) (login : Nat → LoginHttpResponse)
    (exec : String → String → Nat → Except GoError HttpResponse) :
    (makeAuthenticatedRequest method endpoint store login exec).reauthAttempts ≤ 1 ∧
    (makeAuthenticatedRequest method endpoint store login exec).requestAttempts ≤ 2 ∧
    (∀ r1, store.hasTokens = true → exec method endpoint 0 = .ok r1 →
      r1.statusCode = 401 →
      (∀ e st2, authenticate (login 0) store = (.error e, st2) →
        makeAuthenticatedRequest method endpoint store login exec =
          ⟨.error (.wrapped "re-authentication failed" e), st2, 0, 1, 1⟩) ∧
      (∀ st2, authenticate (login 0) store = (.ok (), st2) →
        makeAuthenticatedRequest method endpoint store login exec =
          ⟨exec method endpoint 1, st2, 0, 1, 2⟩ ∧
        (∀ r2, exec method endpoint 1 = .ok r2 → r2.statusCode = 401 →
          (makeAuthenticatedRequest method endpoint store login exec).result = .ok r2))) := by
  refine ⟨?_, ?_, ?_⟩
  · unfold makeAuthenticatedRequest
    dsimp only
    repeat (any_goals split)
    all_goals simp
  · unfold makeAuthenticatedRequest
    dsimp only
    repeat (any_goals split)
    all_goals simp
  · intro r1 hstore hexec h401
    refine ⟨?_, ?_⟩
    · intro e st2 hauth
      exact makeAuthenticatedRequest_401_reauth_fail method endpoint store login exec
        r1 e st2 hstore hexec h401 hauth
    · intro st2 hauth
      have hmain := makeAuthenticatedRequest_401_reauth_ok method endpoint store login exec
        r1 st2 hstore hexec h401 hauth
      refine ⟨hmain, ?_⟩
      intro r2 hexec2 _
      rw [hmain, hexec2]

/-- Closed instance of `makeAuthenticatedRequest_single_retry`: an
upstream that answers 401 to every execution produces exactly one
re-authentication, exactly two executions, and the second 401 as the
terminal result. -/
theorem makeAuthenticatedRequest_single_retry_witness :
    makeAuthenticatedRequest "GET" "/students/42" sampleTokens (fun _ => goodLoginResp)
        (fun _ _ _ => .ok resp401) =
      ⟨.ok resp401, ⟨"newA", "newR", "newC"⟩, 0, 1, 2⟩ ∧
    (makeAuthenticatedRequest "GET" "/students/42" sampleTokens (fun _ => goodLoginResp)
        (fun _ _ _ => .ok resp401)).result = .ok resp401 :=
  ⟨(((makeAuthenticatedRequest_single_retry "GET" "/students/42" sampleTokens
        (fun _ => goodLoginResp) (fun _ _ _ => .ok resp401)).2.2 resp401
        (by decide) rfl (by decide)).2 ⟨"newA", "newR", "newC"⟩ (by decide)).1,
   (((makeAuthenticatedRequest_single_retry "GET" "/students/42" sampleTokens
        (fun _ => goodLoginResp) (fun _ _ _ => .ok resp401)).2.2 resp401
        (by decide) rfl (by decide)).2 ⟨"newA", "newR", "newC"⟩ (by decide)).2 resp401
     rfl (by decide)⟩

/-- C5 (counterexample): the literal claim that the returned `StudentName`
equals the fetched student's name fails, because the code stores
`FormatName()`, which substitutes "N/A" for an empty name: a successful
fetch of a student whose name is the empty string yields a result with
`StudentName = "N/A"`. -/
theorem createStudentPDF_literal_name_counterexample : ¬ createReportLiteralNameProp := by
  intro h
  have h2 := h (fun _ => .ok (some anonStudent)) (fun _ _ => .ok "reports/out.pdf")
    (fun _ => none) 0 0 1 "Admin" anonStudent "reports/out.pdf"
    (by norm_num) rfl rfl
  have h3 := h2.2 ⟨"RPT-1-0", 1, "N/A", "reports/out.pdf", 0, "Admin", 0⟩ (by decide)
  exact absurd h3.2.2.2.1 (by decide)

/-- C5 (amended): when the fetch and the synthesis both succeed,
`CreateStudentPDF` returns the result whose report id is
`RPT-<id>-<epochSeconds>`, whose student id and generator are passed
through, whose `StudentName` is the fetched student's `FormatName()` (the
name when non-empty, otherwise "N/A"), and whose file size is the stat
size — never negative, and 0 when stat fails. -/
theorem createStudentPDF_success_fields
    (getStudent : Int → Except GoError (Option Student))
    (generate : Student → ReportMetadata → Except GoError String)
    (statSize : String → Option Nat) (genAt nowUnix studentID : Int)
    (generatedBy : String) (student : Student) (filePath : String)
    (hid : 0 < studentID)
    (hfetch : getStudent studentID = .ok (some student))
    (hgen : generate student ⟨genAt, generatedBy,
      "RPT-" ++ toString studentID ++ "-" ++ toString nowUnix⟩ = .ok filePath) :
    (CreateStudentPDF getStudent generate statSize genAt nowUnix studentID
        generatedBy).result =
      .ok ⟨"RPT-" ++ toString studentID ++ "-" ++ toString nowUnix, studentID,
        student.formatName, filePath, genAt, generatedBy,
        getActualFileSize statSize filePath⟩ ∧
    0 ≤ getActualFileSize statSize filePath ∧
    (statSize filePath = none → getActualFileSize statSize filePath = 0) := by
  refine ⟨?_, ?_, ?_⟩
  · unfold CreateStudentPDF
    rw [if_neg (by omega : ¬ (studentID ≤ 0)), hfetch]
    dsimp only
    rw [hgen]
  · unfold getActualFileSize
    cases h : statSize filePath <;> simp
  · intro h
    unfold getActualFileSize
    rw [h]

/-- Closed instance of `createStudentPDF_success_fields`: a successful run
for student 42 named "John Doe", with a failing stat. -/
theorem createStudentPDF_success_fields_witness :
    (CreateStudentPDF (fun _ => .ok (some johnStudent))
        (fun _ _ => .ok "reports/out.pdf") (fun _ => none) 100 1700000000 42
        "Admin").result =
      .ok ⟨"RPT-" ++ toString (42 : Int) ++ "-" ++ toString (1700000000 : Int), 42,
        johnStudent.formatName, "reports/out.pdf", 100, "Admin",
        getActualFileSize (fun _ => none) "reports/out.pdf"⟩ ∧
    0 ≤ getActualFileSize (fun _ => none) "reports/out.pdf" ∧
    ((fun _ => (none : Option Nat)) "reports/out.pdf" = none →
      getActualFileSize (fun _ => none) "reports/out.pdf" = 0) :=
  createStudentPDF_success_fields (fun _ => .ok (some johnStudent))
    (fun _ _ => .ok "reports/out.pdf") (fun _ => none) 100 1700000000 42 "Admin"
    johnStudent "reports/out.pdf" (by norm_num) rfl rfl

/-- Helper: replacing the element at a valid index shifts the weight sum
by the difference of the two weights. -/
theorem weightSum_set (l : List CPhase) (i : Nat) (q p : CPhase)
    (h : l.get? i = some q) :
    ((l.set i p).map CPhase.weight).sum + q.weight
      = (l.map CPhase.weight).sum + p.weight := by
  induction l generalizing i with
  | nil => cases h
  | cons hd t ih =>
    cases i with
    | zero =>
      injection h with h
      subst h
      simp [List.set]
      omega
    | succ j =>
      have h' : t.get? j = some q := h
      have := ih j h'
      simp only [List.set, List.map_cons, List.sum_cons]
      omega

/-- Helper: a completed world has weight sum zero. -/
theorem weightSum_complete (w : EnsureWorld) (h : w.complete = true) :
    (w.phases.map CPhase.weight).sum = 0 := by
  unfold EnsureWorld.complete at h
  rw [List.all_eq_true] at h
  apply List.sum_eq_zero
  intro x hx
  rcases List.mem_map.mp hx with ⟨p, hp, rfl⟩
  have hfin := of_decide_eq_true (h p hp)
  rw [hfin]
  rfl

/-- Helper: writing an unfinished phase at a valid index leaves the world
incomplete. -/
theorem all_finished_set_false (l : List CPhase) (i : Nat) (q p : CPhase)
    (h : l.get? i = some q) (hp : ¬ p = CPhase.finished) :
    (l.set i p).all (fun x => x = CPhase.finished) = false := by
  induction l generalizing i with
  | nil => cases h
  | cons hd t ih =>
    cases i with
    | zero => simp [List.set, hp]
    | succ j =>
      have h' : t.get? j = some q := h
      simp [List.set, ih j h']

/-- Helper: one scheduler step preserves the execution invariant. -/
theorem ensureStep_inv (loginTok : Nat → TokenSet) (n : Nat) (w : EnsureWorld)
    (i : Nat) (hl : ∀ k, (loginTok k).hasTokens = true)
    (hInv : EnsureInv n w) : EnsureInv n (ensureStep loginTok w i) := by
  obtain ⟨hlen, hsum, hdisj⟩ := hInv
  unfold ensureStep
  cases hg : w.phases.get? i with
  | none => exact ⟨hlen, hsum, hdisj⟩
  | some ph =>
    cases ph with
    | ready =>
      by_cases hstore : w.store.hasTokens = true
      · rw [if_pos hstore]
        have hws := weightSum_set w.phases i CPhase.ready CPhase.finished hg
        refine ⟨by simp [hlen], ?_, ?_⟩
        · simp only [CPhase.weight] at hws
          simp only []
          omega
        · rcases hdisj with ⟨ht, ho⟩ | ⟨hemp, _, _⟩
          · exact Or.inl ⟨ht, ho⟩
          · exfalso
            rw [hemp] at hstore
            exact absurd hstore (by decide)
      · rw [if_neg hstore]
        have hws := weightSum_set w.phases i CPhase.ready CPhase.willLogin hg
        refine ⟨by simp [hlen], ?_, ?_⟩
        · simp only [CPhase.weight] at hws
          simp only []
          omega
        · rcases hdisj with ⟨ht, _⟩ | ⟨hemp, hz, _⟩
          · exact absurd ht hstore
          · refine Or.inr ⟨hemp, hz, ?_⟩
            unfold EnsureWorld.complete
            simp only []
            exact all_finished_set_false w.phases i CPhase.ready CPhase.willLogin hg
              (by intro hx; cases hx)
    | willLogin =>
      have hws := weightSum_set w.phases i CPhase.willLogin CPhase.finished hg
      refine ⟨by simp [hlen], ?_, ?_⟩
      · simp only [CPhase.weight] at hws
        simp only []
        omega
      · exact Or.inl ⟨hl w.logins, by simp⟩
    | finished => exact ⟨hlen, hsum, hdisj⟩

/-- Helper: running a whole schedule preserves the execution invariant. -/
theorem ensureRun_inv (loginTok : Nat → TokenSet) (n : Nat) (sched : List Nat)
    (w : EnsureWorld) (hl : ∀ k, (loginTok k).hasTokens = true)
    (hInv : EnsureInv n w) : EnsureInv n (ensureRun loginTok sched w) := by
  induction sched generalizing w with
  | nil => exact hInv
  | cons i t ih => exact ih (ensureStep loginTok w i) (ensureStep_inv loginTok n w i hl hInv)

/-- Helper: the initial world of at least one caller satisfies the
invariant. -/
theorem ensureInit_inv (n : Nat) (hn : 1 ≤ n) : EnsureInv n (ensureInit n) := by
  refine ⟨by simp [ensureInit], ?_, Or.inr ⟨rfl, rfl, ?_⟩⟩
  · simp [ensureInit, CPhase.weight, List.map_replicate]
  · unfold EnsureWorld.complete ensureInit
    simp only []
    have hmem : CPhase.ready ∈ List.replicate n CPhase.ready :=
      List.mem_replicate.mpr ⟨by omega, rfl⟩
    by_contra hx
    simp only [Bool.not_eq_false] at hx
    rw [List.all_eq_true] at hx
    have hfin := of_decide_eq_true (hx _ hmem)
    cases hfin

/-- C1 (counterexample): `ensureAuthenticated` has no single-flight guard —
the presence check under the read lock and the login under the write lock
are not linked — so two concurrent callers that both pass the check before
either logs in perform two logins: the schedule 0,1,0,1 of two callers
from the unauthenticated state completes with two logins, refuting
"exactly one login". -/
theorem ensureAuthenticated_single_flight_counterexample : ¬ singleFlightLoginProp := by
  intro h
  have h2 := h (fun _ => ⟨"a", "r", "c"⟩) 2 [0, 1, 0, 1] (by norm_num)
    (fun _ => (by decide : TokenSet.hasTokens ⟨"a", "r", "c"⟩ = true)) (by decide)
  exact absurd h2 (by decide)

/-- C1 (amended): from an unauthenticated state, every complete schedule
of concurrent `ensureAuthenticated` callers performs at least one and at
most one-per-caller login operations (rather than exactly one), and the
final store is fully populated. -/
theorem ensureAuthenticated_concurrent_logins_bounded (loginTok : Nat → TokenSet)
    (n : Nat) (sched : List Nat) (hn : 1 ≤ n)
    (hl : ∀ k, (loginTok k).hasTokens = true)
    (hc : (ensureRun loginTok sched (ensureInit n)).complete = true) :
    1 ≤ (ensureRun loginTok sched (ensureInit n)).logins ∧
    (ensureRun loginTok sched (ensureInit n)).logins ≤ n ∧
    (ensureRun loginTok sched (ensureInit n)).store.hasTokens = true := by
  obtain ⟨hlen, hsum, hdisj⟩ := ensureRun_inv loginTok n sched (ensureInit n) hl
    (ensureInit_inv n hn)
  have hzero := weightSum_complete _ hc
  rcases hdisj with ⟨htoken, hone⟩ | ⟨_, _, hfalse⟩
  · exact ⟨hone, by omega, htoken⟩
  · rw [hc] at hfalse
    cases hfalse

/-- Closed instance of `ensureAuthenticated_concurrent_logins_bounded` for
two callers under the serial schedule 0,0,1,1. -/
theorem ensureAuthenticated_concurrent_logins_bounded_witness :
    1 ≤ (ensureRun (fun _ => ⟨"a", "r", "c"⟩) [0, 0, 1, 1] (ensureInit 2)).logins ∧
    (ensureRun (fun _ => ⟨"a", "r", "c"⟩) [0, 0, 1, 1] (ensureInit 2)).logins ≤ 2 ∧
    (ensureRun (fun _ => ⟨"a", "r", "c"⟩) [0, 0, 1, 1]
        (ensureInit 2)).store.hasTokens = true :=
  ensureAuthenticated_concurrent_logins_bounded (fun _ => ⟨"a", "r", "c"⟩) 2
    [0, 0, 1, 1] (by norm_num)
    (fun _ => (by decide : TokenSet.hasTokens ⟨"a", "r", "c"⟩ = true)) (by decide)

end GoService
